import Mathlib

/-!
Shallow embedding of the quantitative core of `betting_new.py`
(`NBAPlayerPropAnalyzer`): trend estimation, variance estimation, the
prediction-adjustment pipeline, the Monte Carlo summary statistics, odds
conversion, Kelly sizing and the betting decision rule.

Python floats are embedded as rationals (`ℚ`); Python exceptions are embedded
with `Except`; the Monte Carlo random draws (the only stochastic part of the
pipeline) are passed in explicitly as a list of samples.
-/

set_option linter.unusedVariables false

namespace BettingNew

/-- Errors the embedded pipeline can surface.  `zeroDivisionError` is Python's
built-in `ZeroDivisionError` (raised by `100 / abs(odds)` when `odds == 0`);
`invalidOddsError` is the `InvalidOddsError` named by the spec — the source
defines no such class, the constructor exists only so that statements can
compare the two failure modes. -/
inductive PyErr where
  | zeroDivisionError
  | invalidOddsError
deriving DecidableEq, Repr, Inhabited

/-- `np.average(vals, weights=weights)`: the weighted sum divided by the sum
of the weights. -/
def npAverage (vals weights : List ℚ) : ℚ :=
  (List.zipWith (fun v w => v * w) vals weights).sum / weights.sum

/-- The fixed weight schedule `np.array([0.35, 0.25, 0.20, 0.15, 0.05])`
of `calculate_recent_trend` (source line 183). -/
def trendWeights : List ℚ := [0.35, 0.25, 0.20, 0.15, 0.05]

/-- `calculate_recent_trend` (source lines 177-186).  The game log is
`none` for a `None` DataFrame, otherwise the most-recent-first list of
per-game values of the stat column.  The source takes the 5 most recent
games, truncates the weight schedule to that many entries, renormalizes the
weights to sum to 1 and returns their `np.average`; a `None` or empty log
returns `0`. -/
def calculate_recent_trend (game_log : Option (List ℚ)) : ℚ :=
  match game_log with
  | none => 0
  | some log =>
    if log.length = 0 then 0
    else
      let recent_stats := log.take 5
      let weights := trendWeights.take recent_stats.length
      let weights := weights.map (fun w => w / weights.sum)
      npAverage recent_stats weights

/-- Mean of a list (`Series.mean`, `np.mean`); `0` on the empty list via
`ℚ`'s `x / 0 = 0` convention. -/
def sampleMean (xs : List ℚ) : ℚ := xs.sum / xs.length

/-- Sample variance with `ddof = 1`: the square of pandas `Series.std()`. -/
def sampleVarianceDdof1 (xs : List ℚ) : ℚ :=
  (xs.map (fun x => (x - sampleMean xs) ^ 2)).sum / ((xs.length : ℚ) - 1)

/-- `calculate_variance` (source lines 188-193), modelled through its square.
The source returns `game_log[stat].head(10).std()` — the sample standard
deviation of the 10 most recent values — or the default `5.0` when the log is
`None` or has fewer than 3 games.  The square root of a rational is not
rational, so the embedding carries the squared value (`25.0` for the default,
the `ddof = 1` sample variance otherwise); `std > 0 ↔ variance > 0` and
`std = 0 ↔ variance = 0`, so every claim about the sign of `std_dev` is
settled on this value. -/
def calculate_varianceSq (game_log : Option (List ℚ)) : ℚ :=
  match game_log with
  | none => 25
  | some log =>
    if log.length < 3 then 25
    else sampleVarianceDdof1 (log.take 10)

/-- `np.median`: middle element of the sorted data, or the mean of the two
middle elements for even length. -/
def npMedian (xs : List ℚ) : ℚ :=
  let s := List.insertionSort (fun a b => a ≤ b) xs
  let n := s.length
  if n = 0 then 0
  else if n % 2 = 1 then s.getD (n / 2) 0
  else (s.getD (n / 2 - 1) 0 + s.getD (n / 2) 0) / 2

/-- `np.percentile` with the default linear interpolation: position
`q/100 * (n-1)` in the sorted data, interpolating between the two
neighbouring order statistics. -/
def npPercentile (xs : List ℚ) (q : ℚ) : ℚ :=
  let s := List.insertionSort (fun a b => a ≤ b) xs
  let n := s.length
  if n = 0 then 0
  else
    let pos : ℚ := q / 100 * ((n : ℚ) - 1)
    let i : ℕ := (Int.floor pos).toNat
    let lower := s.getD i 0
    let upper := s.getD (min (i + 1) (n - 1)) 0
    lower + (pos - (i : ℚ)) * (upper - lower)

/-- The dict returned by `run_monte_carlo_simulation` (source lines 303-311). -/
structure MCResult where
  over_probability : ℚ
  under_probability : ℚ
  expected_value : ℚ
  median_value : ℚ
  ci_95_lower : ℚ
  ci_95_upper : ℚ
  simulations : List ℚ
deriving DecidableEq, Repr, Inhabited

/-- `run_monte_carlo_simulation` (source lines 283-311).  The source draws
`num_simulations` samples from the normal distribution
`N(predicted_value, std_dev * 1.1)` with `np.random.normal`; the embedding
receives those random draws explicitly as `simulations` (`predicted_value`
and `std_dev` shape only the draws themselves).  `over_prob` is the count of
samples strictly greater than the line over the number of samples,
`under_prob` is `1 - over_prob`. -/
def run_monte_carlo_simulation (predicted_value std_dev prop_line : ℚ)
    (simulations : List ℚ) : MCResult :=
  let adjusted_std := std_dev * 1.1
  let num_simulations := simulations.length
  let over_prob : ℚ :=
    ((simulations.countP (fun s => decide (prop_line < s)) : ℕ) : ℚ) / (num_simulations : ℚ)
  let under_prob : ℚ := 1 - over_prob
  { over_probability := over_prob
    under_probability := under_prob
    expected_value := sampleMean simulations
    median_value := npMedian simulations
    ci_95_lower := npPercentile simulations 2.5
    ci_95_upper := npPercentile simulations 97.5
    simulations := simulations }

/-- The feature dict built by `engineer_features` (source lines 229-260). -/
structure Features where
  recent_avg_5 : ℚ
  recent_avg_10 : ℚ
  season_avg : ℚ
  games_played : ℕ
  std_dev : ℚ
  recent_min_avg : ℚ
  home_away : ℕ
  opp_def_rating : ℚ
  opp_pace : ℚ
  opp_pts_allowed : ℚ
  opp_team_abbr_resolved : String
  opp_team_name_resolved : String
  hot_cold_factor : ℚ
deriving DecidableEq, Repr, Inhabited

/-- The `recommendation['bet']` field: `'OVER'`, `'UNDER'` or `'NO BET'`. -/
inductive Bet where
  | over
  | under
  | noBet
deriving DecidableEq, Repr, Inhabited

/-- The recommendation dict returned by `calculate_betting_recommendation`
(source lines 366-392). -/
structure Recommendation where
  predicted_value : ℚ
  prop_line : ℚ
  edge_over : ℚ
  edge_under : ℚ
  kelly_over : ℚ
  kelly_under : ℚ
  mc_results : MCResult
  bet : Bet
  confidence : ℚ
  edge : ℚ
  kelly_size : ℚ
deriving DecidableEq, Repr, Inhabited

/-- Source lines 315-335 of `calculate_betting_recommendation`: the
prediction-adjustment pipeline, returning the `(predicted_value, std_dev)`
pair that line 338 passes to `run_monte_carlo_simulation`. -/
def predictionAndStd (features : Features) : ℚ × ℚ :=
  let predicted_value := features.recent_avg_5
  let std_dev := features.std_dev
  let def_adjustment := (115 - features.opp_def_rating) / 100
  let predicted_value := predicted_value * (1 + def_adjustment * 0.1)
  let pace_adjustment := (features.opp_pace - 99) / 100
  let predicted_value := predicted_value * (1 + pace_adjustment * 0.05)
  let predicted_value := predicted_value + features.hot_cold_factor * 0.5
  let predicted_value :=
    if features.home_away = 1 then predicted_value * 1.02
    else predicted_value * 0.98
  (predicted_value, std_dev)

/-- `american_to_decimal` (source lines 341-345): positive odds map to
`odds / 100 + 1`, otherwise `100 / abs(odds) + 1`, which raises Python's
`ZeroDivisionError` when `odds == 0`. -/
def american_to_decimal (odds : ℤ) : Except PyErr ℚ :=
  if odds > 0 then Except.ok ((odds : ℚ) / 100 + 1)
  else if odds.natAbs = 0 then Except.error PyErr.zeroDivisionError
  else Except.ok (100 / ((odds.natAbs : ℕ) : ℚ) + 1)

/-- Source lines 350-392 of `calculate_betting_recommendation`: implied
probabilities, edges, quarter-Kelly sizing and the decision rule, taking the
already-converted decimal odds. -/
def recommendationFrom (predicted_value prop_line : ℚ) (mc_results : MCResult)
    (decimal_odds_over decimal_odds_under : ℚ) : Recommendation :=
  let implied_prob_over := 1 / decimal_odds_over
  let implied_prob_under := 1 / decimal_odds_under
  let edge_over := mc_results.over_probability - implied_prob_over
  let edge_under := mc_results.under_probability - implied_prob_under
  let kelly_fraction : ℚ := 0.25
  let kelly_over := max 0 (kelly_fraction * edge_over / (decimal_odds_over - 1))
  let kelly_under := max 0 (kelly_fraction * edge_under / (decimal_odds_under - 1))
  let min_edge : ℚ := 0.05
  let base : Recommendation :=
    { predicted_value := predicted_value
      prop_line := prop_line
      edge_over := edge_over
      edge_under := edge_under
      kelly_over := kelly_over
      kelly_under := kelly_under
      mc_results := mc_results
      bet := Bet.noBet
      confidence := 0
      edge := max edge_over edge_under
      kelly_size := 0 }
  if edge_over > min_edge ∧ edge_over > edge_under then
    { base with
      bet := Bet.over
      confidence := min (edge_over * 10) 5
      edge := edge_over
      kelly_size := kelly_over }
  else if edge_under > min_edge ∧ edge_under > edge_over then
    { base with
      bet := Bet.under
      confidence := min (edge_under * 10) 5
      edge := edge_under
      kelly_size := kelly_under }
  else base

/-- `calculate_betting_recommendation` (source lines 313-392).  The Monte
Carlo random draws are injected as `draws` (see
`run_monte_carlo_simulation`); the odds conversion raises on `0` odds, so the
result lives in `Except` with the two conversions sequenced by `bind`. -/
def calculate_betting_recommendation (features : Features) (prop_line : ℚ)
    (betting_odds_over betting_odds_under : ℤ) (draws : List ℚ) :
    Except PyErr Recommendation :=
  let predicted_value := (predictionAndStd features).1
  let std_dev := (predictionAndStd features).2
  let mc_results := run_monte_carlo_simulation predicted_value std_dev prop_line draws
  (american_to_decimal betting_odds_over).bind (fun decimal_odds_over =>
    (american_to_decimal betting_odds_under).bind (fun decimal_odds_under =>
      Except.ok (recommendationFrom predicted_value prop_line mc_results
        decimal_odds_over decimal_odds_under)))

/-- One entry of `engineer_features`' stat mapping: a single NBA API column
or a list of columns to be summed per game. -/
inductive StatCols where
  | single (col : String)
  | combo (cols : List String)
deriving DecidableEq, Repr, Inhabited

/-- The `stat_mapping` dict of `engineer_features` (source lines 207-215),
as a partial map on the (already lowercased) stat-type string. -/
def stat_mapping (s : String) : Option StatCols :=
  if s = "points" then some (StatCols.single "PTS")
  else if s = "rebounds" then some (StatCols.single "REB")
  else if s = "assists" then some (StatCols.single "AST")
  else if s = "threes" then some (StatCols.single "FG3M")
  else if s = "pts+rebs" then some (StatCols.combo ["PTS", "REB"])
  else if s = "pts+asts" then some (StatCols.combo ["PTS", "AST"])
  else if s = "rebs+asts" then some (StatCols.combo ["REB", "AST"])
  else none

/-- Python's `str.lower()`: the string with every character lowercased
(written as a map over the character list; core's `String.toLower` is the
same function but is defined by well-founded recursion, which blocks kernel
evaluation). -/
def strLower (s : String) : String := String.mk (s.data.map Char.toLower)

/-- Source line 217: `stat_col = stat_mapping.get(stat_type.lower(), 'PTS')`
— the dict lookup with the default `'PTS'` for unrecognized keys. -/
def statColFor (stat_type : String) : StatCols :=
  (stat_mapping (strLower stat_type)).getD (StatCols.single "PTS")

/-- The `{team_id, abbr, full_name}` dict of `_resolve_team` (abridged to the
fields `engineer_features` reads). -/
structure ResolvedTeam where
  abbr : String
  full_name : String
deriving DecidableEq, Repr, Inhabited

/-- The opponent-stat fields `get_team_defense_stats` contributes to the
feature dict. -/
structure OppStats where
  opp_def_rating : ℚ
  opp_pace : ℚ
  opp_pts_allowed : ℚ
  opp_team_abbr_resolved : String
  opp_team_name_resolved : String
deriving DecidableEq, Repr, Inhabited

/-- Source lines 239-256 of `engineer_features`: the opponent-stat update of
the feature dict.  `opponent_stats` is the (possibly `None`) result of
`get_team_defense_stats`, `resolved` the (possibly `None`) result of
`_resolve_team`.  On `None` the source prints a `[team-defense]` fallback
message to the console and substitutes the league-average defaults; the
second component collects that console output (message text abridged to its
fixed prefix plus the raw input). -/
def applyOpponentStats (opponent_team : String) (opponent_stats : Option OppStats)
    (resolved : Option ResolvedTeam) : OppStats × List String :=
  match opponent_stats with
  | some s => (s, [])
  | none =>
    ({ opp_def_rating := 112.0
       opp_pace := 99.0
       opp_pts_allowed := 112.0
       opp_team_abbr_resolved :=
         match resolved with
         | some r => r.abbr
         | none => opponent_team.trim.toUpper
       opp_team_name_resolved :=
         match resolved with
         | some r => r.full_name
         | none => "" },
     ["[team-defense] Falling back to defaults. input=" ++ opponent_team])

end BettingNew

namespace BettingNew

/-! ## Helper lemmas -/

/-- Every sample is counted exactly once: strictly above the line or at/below
it. -/
theorem countP_lt_le_split (prop_line : ℚ) (l : List ℚ) :
    l.countP (fun s => decide (prop_line < s))
      + l.countP (fun s => decide (s ≤ prop_line)) = l.length := by
  induction l with
  | nil => rfl
  | cons x xs ih =>
    simp only [List.countP_cons, List.length_cons]
    by_cases hx : prop_line < x
    · have h1 : decide (prop_line < x) = true := by simp [hx]
      have h2 : decide (x ≤ prop_line) = false := by simp [not_le.mpr hx]
      rw [h1, h2]
      norm_num
      omega
    · have h1 : decide (prop_line < x) = false := by simp [hx]
      have h2 : decide (x ≤ prop_line) = true := by simp [not_lt.mp hx]
      rw [h1, h2]
      norm_num
      omega

/-! ## C3: Monte Carlo probability split -/

/-- C3: for every run of `run_monte_carlo_simulation` on a nonempty draw
list, `over_probability` equals the fraction of drawn samples strictly
greater than the prop line, `under_probability` equals
`1 - over_probability`, the two sum to exactly `1`, and a sample exactly
equal to the line counts toward under (`under_probability` is the fraction
of samples `≤` the line). -/
theorem monte_carlo_probability_split (predicted_value std_dev prop_line : ℚ)
    (simulations : List ℚ) (h : simulations ≠ []) :
    (run_monte_carlo_simulation predicted_value std_dev prop_line simulations).over_probability
        = ((simulations.filter (fun s => decide (prop_line < s))).length : ℚ)
            / (simulations.length : ℚ) ∧
    (run_monte_carlo_simulation predicted_value std_dev prop_line simulations).under_probability
        = 1 - (run_monte_carlo_simulation predicted_value std_dev prop_line
            simulations).over_probability ∧
    (run_monte_carlo_simulation predicted_value std_dev prop_line simulations).over_probability
        + (run_monte_carlo_simulation predicted_value std_dev prop_line
            simulations).under_probability = 1 ∧
    (run_monte_carlo_simulation predicted_value std_dev prop_line simulations).under_probability
        = ((simulations.filter (fun s => decide (s ≤ prop_line))).length : ℚ)
            / (simulations.length : ℚ) := by
  have hn : (simulations.length : ℚ) ≠ 0 := by
    have : simulations.length ≠ 0 := fun hlen => h (List.length_eq_zero.mp hlen)
    exact_mod_cast this
  refine ⟨?_, rfl, ?_, ?_⟩
  · simp [run_monte_carlo_simulation, List.countP_eq_length_filter]
  · simp only [run_monte_carlo_simulation]
    ring
  · have hsplit := countP_lt_le_split prop_line simulations
    have hq : ((simulations.countP (fun s => decide (prop_line < s)) : ℕ) : ℚ)
        + ((simulations.countP (fun s => decide (s ≤ prop_line)) : ℕ) : ℚ)
        = (simulations.length : ℚ) := by exact_mod_cast hsplit
    simp only [run_monte_carlo_simulation, List.countP_eq_length_filter] at hq ⊢
    field_simp
    linarith [hq]

/-- Witness for C3 at the concrete draw list `[1, 2]` with line `1`: the
sample `2` counts over, the tied sample `1` counts under. -/
theorem monte_carlo_probability_split_witness :
    (([1, 2] : List ℚ) ≠ []) ∧
    ((run_monte_carlo_simulation 0 1 1 [1, 2]).over_probability
        = ((([1, 2] : List ℚ).filter (fun s => decide ((1 : ℚ) < s))).length : ℚ)
            / ((([1, 2] : List ℚ).length : ℕ) : ℚ) ∧
      (run_monte_carlo_simulation 0 1 1 [1, 2]).under_probability
          = 1 - (run_monte_carlo_simulation 0 1 1 [1, 2]).over_probability ∧
      (run_monte_carlo_simulation 0 1 1 [1, 2]).over_probability
          + (run_monte_carlo_simulation 0 1 1 [1, 2]).under_probability = 1 ∧
      (run_monte_carlo_simulation 0 1 1 [1, 2]).under_probability
          = ((([1, 2] : List ℚ).filter (fun s => decide (s ≤ (1 : ℚ)))).length : ℚ)
              / ((([1, 2] : List ℚ).length : ℕ) : ℚ)) :=
  ⟨by simp, monte_carlo_probability_split 0 1 1 [1, 2] (by simp)⟩

/-! ## C5: weighted recent trend -/

/-- C5 counterexample: on the spec's fixture `[30, 25, 28, 22, 20]` the
weighted recent average is not the spec's stated `26.35`
(`30*0.35 + 25*0.25 + 28*0.20 + 22*0.15 + 20*0.05 = 26.65`). -/
theorem recent_trend_fixture_not_26_35 :
    calculate_recent_trend (some [30, 25, 28, 22, 20]) ≠ 26.35 := by
  norm_num [calculate_recent_trend, npAverage, trendWeights]

/-- C5 (amended): for every non-empty most-recent-first list of per-game
values, `calculate_recent_trend` is the weighted mean of the most recent 5
games with weights `0.35, 0.25, 0.20, 0.15, 0.05`, truncating and
renormalizing the schedule when fewer than 5 games exist; on the fixture
`[30, 25, 28, 22, 20]` the result equals `26.65` (not the spec's `26.35`). -/
theorem recent_trend_weighted_mean (log : List ℚ) (h : log ≠ []) :
    calculate_recent_trend (some log) =
      (match log with
        | [] => 0
        | [a] => a
        | [a, b] => (0.35 * a + 0.25 * b) / 0.60
        | [a, b, c] => (0.35 * a + 0.25 * b + 0.20 * c) / 0.80
        | [a, b, c, d] => (0.35 * a + 0.25 * b + 0.20 * c + 0.15 * d) / 0.95
        | a :: b :: c :: d :: e :: _ =>
            0.35 * a + 0.25 * b + 0.20 * c + 0.15 * d + 0.05 * e) ∧
    calculate_recent_trend (some [30, 25, 28, 22, 20]) = 26.65 := by
  constructor
  · rcases log with _ | ⟨a, _ | ⟨b, _ | ⟨c, _ | ⟨d, _ | ⟨e, rest⟩⟩⟩⟩⟩
    · exact absurd rfl h
    all_goals
      norm_num [calculate_recent_trend, npAverage, trendWeights]
      try ring_nf
  · norm_num [calculate_recent_trend, npAverage, trendWeights]

/-- Witness for C5 at the fixture list. -/
theorem recent_trend_weighted_mean_witness :
    (([30, 25, 28, 22, 20] : List ℚ) ≠ []) ∧
    calculate_recent_trend (some [30, 25, 28, 22, 20]) = 26.65 :=
  ⟨by simp, (recent_trend_weighted_mean [30, 25, 28, 22, 20] (by simp)).2⟩

/-! ## C6: American-to-decimal odds conversion -/

/-- C6 counterexample: on input `0` the conversion fails with Python's
`ZeroDivisionError` (from `100 / abs(0)`), which is not the
`InvalidOddsError` the claim names. -/
theorem american_to_decimal_zero_raises_zero_division :
    american_to_decimal 0 = Except.error PyErr.zeroDivisionError ∧
    PyErr.zeroDivisionError ≠ PyErr.invalidOddsError :=
  ⟨rfl, by decide⟩

/-- C6 (amended): positive odds convert to `odds/100 + 1`, negative odds to
`100/|odds| + 1`, and the input `0` fails with `ZeroDivisionError` (an
unguarded division by zero), not an `InvalidOddsError`. -/
theorem american_to_decimal_conversion (odds : ℤ) :
    (0 < odds → american_to_decimal odds = Except.ok ((odds : ℚ) / 100 + 1)) ∧
    (odds < 0 → american_to_decimal odds = Except.ok (100 / ((|odds| : ℤ) : ℚ) + 1)) ∧
    (odds = 0 → american_to_decimal odds = Except.error PyErr.zeroDivisionError) := by
  refine ⟨fun hpos => ?_, fun hneg => ?_, fun hzero => ?_⟩
  · simp [american_to_decimal, hpos]
  · have h1 : ¬ odds > 0 := by omega
    have h2 : odds.natAbs ≠ 0 := by omega
    simp only [american_to_decimal, h1, if_false, h2, if_neg h2]
    congr 1
    push_cast [Int.cast_natAbs]
    simp
  · subst hzero
    rfl

/-- Witness for C6 at odds `150`, `-110` and `0`. -/
theorem american_to_decimal_conversion_witness :
    ((0 : ℤ) < 150 ∧ american_to_decimal 150 = Except.ok (((150 : ℤ) : ℚ) / 100 + 1)) ∧
    ((-110 : ℤ) < 0 ∧
      american_to_decimal (-110) = Except.ok (100 / ((|(-110 : ℤ)| : ℤ) : ℚ) + 1)) ∧
    ((0 : ℤ) = 0 ∧ american_to_decimal 0 = Except.error PyErr.zeroDivisionError) :=
  ⟨⟨by norm_num, (american_to_decimal_conversion 150).1 (by norm_num)⟩,
   ⟨by norm_num, (american_to_decimal_conversion (-110)).2.1 (by norm_num)⟩,
   ⟨rfl, (american_to_decimal_conversion 0).2.2 rfl⟩⟩

/-! ## C7: stat-type mapping -/

/-- C7 counterexample: `"steals"` is outside the supported stat-type enum
(`stat_mapping` has no entry for it), yet the lookup silently yields the
`'PTS'` (points) column instead of failing. -/
theorem unknown_stat_type_defaults_to_points :
    stat_mapping (strLower "steals") = none ∧
    statColFor "steals" = StatCols.single "PTS" :=
  ⟨by decide, by decide⟩

/-- C7 (amended): the seven supported stat types map to their columns, and
every stat-type string outside the enum is silently mapped to the `'PTS'`
(points) column by the `.get(..., 'PTS')` default — no
`UnsupportedStatTypeError` exists in the source and nothing is raised. -/
theorem stat_type_mapping_default (s : String)
    (h : stat_mapping (strLower s) = none) :
    statColFor s = StatCols.single "PTS" ∧
    statColFor "points" = StatCols.single "PTS" ∧
    statColFor "rebounds" = StatCols.single "REB" ∧
    statColFor "assists" = StatCols.single "AST" ∧
    statColFor "threes" = StatCols.single "FG3M" ∧
    statColFor "pts+rebs" = StatCols.combo ["PTS", "REB"] ∧
    statColFor "pts+asts" = StatCols.combo ["PTS", "AST"] ∧
    statColFor "rebs+asts" = StatCols.combo ["REB", "AST"] := by
  refine ⟨?_, by decide, by decide, by decide, by decide, by decide, by decide, by decide⟩
  simp [statColFor, h]

/-- Witness for C7 at the unrecognized stat type `"steals"`. -/
theorem stat_type_mapping_default_witness :
    stat_mapping (strLower "steals") = none ∧
    (statColFor "steals" = StatCols.single "PTS" ∧
     statColFor "points" = StatCols.single "PTS" ∧
     statColFor "rebounds" = StatCols.single "REB" ∧
     statColFor "assists" = StatCols.single "AST" ∧
     statColFor "threes" = StatCols.single "FG3M" ∧
     statColFor "pts+rebs" = StatCols.combo ["PTS", "REB"] ∧
     statColFor "pts+asts" = StatCols.combo ["PTS", "AST"] ∧
     statColFor "rebs+asts" = StatCols.combo ["REB", "AST"]) :=
  ⟨by decide, stat_type_mapping_default "steals" (by decide)⟩

/-! ## C9: empty game log -/

/-- C9 counterexample: on the empty input sequence the weighted recent
average silently returns `0` — a value indistinguishable from a real
output — rather than failing. -/
theorem empty_log_trend_returns_zero :
    calculate_recent_trend (some []) = 0 :=
  rfl

/-- C9 (amended): for an empty (or `None`) game log,
`calculate_recent_trend` silently returns the sentinel `0`; no
`InsufficientDataError` exists in the source and nothing is raised. -/
theorem empty_log_trend_zero_not_error :
    calculate_recent_trend none = 0 ∧ calculate_recent_trend (some []) = 0 :=
  ⟨rfl, rfl⟩

end BettingNew

namespace BettingNew

/-! ## C2: prediction adjustment pipeline -/

/-- Modelled from the spec (§4.3 step 1): the defensive adjustment
`factor = 1 + ((115 − opp_def_rating)/100) * 0.1`, applied multiplicatively.
Spec-side definition, for comparison with the source pipeline. -/
def specDefensiveAdjust (opp_def_rating x : ℚ) : ℚ :=
  x * (1 + ((115 - opp_def_rating) / 100) * 0.1)

/-- Modelled from the spec (§4.3 step 2): the pace adjustment
`factor = 1 + ((opp_pace − 99)/100) * 0.05`, applied multiplicatively.
Spec-side definition, for comparison with the source pipeline. -/
def specPaceAdjust (opp_pace x : ℚ) : ℚ :=
  x * (1 + ((opp_pace - 99) / 100) * 0.05)

/-- Modelled from the spec (§4.3 step 3): the additive hot/cold nudge
`predicted += hot_cold_factor * 0.5`.  Spec-side definition, for comparison
with the source pipeline. -/
def specHotColdNudge (hot_cold_factor x : ℚ) : ℚ :=
  x + hot_cold_factor * 0.5

/-- Modelled from the spec (§4.3 step 4): multiply by `1.02` if home,
`0.98` if away.  Spec-side definition, for comparison with the source
pipeline. -/
def specHomeAwayAdjust (home_away : ℕ) (x : ℚ) : ℚ :=
  if home_away = 1 then x * 1.02 else x * 0.98

/-- C2: for every `FeatureVector`, the source's point prediction equals the
spec's four adjustment steps composed in the spec's fixed order — base value
`recent_avg_5`, then the defensive multiplier, then the pace multiplier,
then the additive `hot_cold_factor * 0.5` nudge, then the home/away
multiplier (`1.02` home, `0.98` away). -/
theorem predicted_value_adjustment_order (features : Features) :
    (predictionAndStd features).1 =
      specHomeAwayAdjust features.home_away
        (specHotColdNudge features.hot_cold_factor
          (specPaceAdjust features.opp_pace
            (specDefensiveAdjust features.opp_def_rating features.recent_avg_5))) := by
  by_cases h : features.home_away = 1
  · simp only [predictionAndStd, specHomeAwayAdjust, specHotColdNudge,
      specPaceAdjust, specDefensiveAdjust, h, if_true]
  · simp only [predictionAndStd, specHomeAwayAdjust, specHotColdNudge,
      specPaceAdjust, specDefensiveAdjust, h, if_false]

/-! ## C4: quarter-Kelly sizing -/

/-- C4: for every edge value (any Monte Carlo result) and every valid pair
of decimal odds (`> 1`), the per-side Kelly fractions equal
`max 0 (0.25 * edge / (decimal_odds - 1))` with the fixed quarter-Kelly
multiplier `0.25`, and are therefore never negative — including for
strongly negative edges. -/
theorem kelly_fraction_nonneg (predicted_value prop_line : ℚ) (mc : MCResult)
    (decimal_odds_over decimal_odds_under : ℚ)
    (hO : 1 < decimal_odds_over) (hU : 1 < decimal_odds_under) :
    (recommendationFrom predicted_value prop_line mc decimal_odds_over
        decimal_odds_under).kelly_over
      = max 0 (0.25 * (recommendationFrom predicted_value prop_line mc
          decimal_odds_over decimal_odds_under).edge_over / (decimal_odds_over - 1)) ∧
    (recommendationFrom predicted_value prop_line mc decimal_odds_over
        decimal_odds_under).kelly_under
      = max 0 (0.25 * (recommendationFrom predicted_value prop_line mc
          decimal_odds_over decimal_odds_under).edge_under / (decimal_odds_under - 1)) ∧
    0 ≤ (recommendationFrom predicted_value prop_line mc decimal_odds_over
        decimal_odds_under).kelly_over ∧
    0 ≤ (recommendationFrom predicted_value prop_line mc decimal_odds_over
        decimal_odds_under).kelly_under := by
  simp only [recommendationFrom]
  split_ifs <;>
    exact ⟨rfl, rfl, le_max_left 0 _, le_max_left 0 _⟩

/-- Witness for C4 at decimal odds `2` on both sides (American `+100`). -/
theorem kelly_fraction_nonneg_witness :
    (1 : ℚ) < 2 ∧
    ((recommendationFrom 0 10 default 2 2).kelly_over
        = max 0 (0.25 * (recommendationFrom 0 10 default 2 2).edge_over / (2 - 1)) ∧
     (recommendationFrom 0 10 default 2 2).kelly_under
        = max 0 (0.25 * (recommendationFrom 0 10 default 2 2).edge_under / (2 - 1)) ∧
     0 ≤ (recommendationFrom 0 10 default 2 2).kelly_over ∧
     0 ≤ (recommendationFrom 0 10 default 2 2).kelly_under) :=
  ⟨by norm_num, kelly_fraction_nonneg 0 10 default 2 2 (by norm_num) (by norm_num)⟩

/-! ## C1: decision rule -/

/-- The decision rule of `recommendationFrom`, stated on the output record:
a helper shared by the C1 theorem and its witness. -/
theorem recommendationFrom_decision (predicted_value prop_line : ℚ)
    (mc : MCResult) (dO dU : ℚ) (rec : Recommendation)
    (hrec : rec = recommendationFrom predicted_value prop_line mc dO dU) :
    (rec.bet = Bet.over ↔ 0.05 < rec.edge_over ∧ rec.edge_under < rec.edge_over) ∧
    (rec.bet = Bet.under ↔ 0.05 < rec.edge_under ∧ rec.edge_over < rec.edge_under) ∧
    (rec.bet = Bet.noBet ↔
      ¬(0.05 < rec.edge_over ∧ rec.edge_under < rec.edge_over) ∧
      ¬(0.05 < rec.edge_under ∧ rec.edge_over < rec.edge_under)) ∧
    (rec.edge_over = rec.edge_under → rec.bet = Bet.noBet) ∧
    (rec.bet = Bet.over → rec.confidence = min (rec.edge_over * 10) 5 ∧
      0 ≤ rec.confidence ∧ rec.confidence ≤ 5) ∧
    (rec.bet = Bet.under → rec.confidence = min (rec.edge_under * 10) 5 ∧
      0 ≤ rec.confidence ∧ rec.confidence ≤ 5) := by
  subst hrec
  simp only [recommendationFrom]
  split_ifs with h1 h2
  · refine ⟨iff_of_true rfl h1,
      iff_of_false (fun hc => hc) (fun hc => absurd hc.2 (lt_asymm h1.2)),
      iff_of_false (fun hc => hc) (fun hc => hc.1 h1),
      fun heq => absurd (lt_of_lt_of_eq h1.2 heq) (lt_irrefl _),
      fun _ => ⟨rfl, le_min (by linarith [h1.1]) (by norm_num), min_le_right _ _⟩,
      fun hcon => hcon.elim⟩
  · refine ⟨iff_of_false (fun hc => hc) h1,
      iff_of_true rfl h2,
      iff_of_false (fun hc => hc) (fun hc => hc.2 h2),
      fun heq => absurd (lt_of_eq_of_lt heq.symm h2.2) (lt_irrefl _),
      fun hcon => hcon.elim,
      fun _ => ⟨rfl, le_min (by linarith [h2.1]) (by norm_num), min_le_right _ _⟩⟩
  · exact ⟨iff_of_false (fun hc => hc) h1,
      iff_of_false (fun hc => hc) h2,
      iff_of_true rfl ⟨h1, h2⟩,
      fun _ => rfl,
      fun hcon => hcon.elim,
      fun hcon => hcon.elim⟩

/-- Any successful run of `calculate_betting_recommendation` factors through
`recommendationFrom` on the converted decimal odds. -/
theorem calculate_betting_recommendation_ok_shape (features : Features)
    (prop_line : ℚ) (betting_odds_over betting_odds_under : ℤ) (draws : List ℚ)
    (rec : Recommendation)
    (h : calculate_betting_recommendation features prop_line betting_odds_over
      betting_odds_under draws = Except.ok rec) :
    ∃ dO dU : ℚ,
      american_to_decimal betting_odds_over = Except.ok dO ∧
      american_to_decimal betting_odds_under = Except.ok dU ∧
      rec = recommendationFrom (predictionAndStd features).1 prop_line
        (run_monte_carlo_simulation (predictionAndStd features).1
          (predictionAndStd features).2 prop_line draws) dO dU := by
  simp only [calculate_betting_recommendation] at h
  cases hO : american_to_decimal betting_odds_over with
  | error e => rw [hO] at h; exact absurd h (by simp [Except.bind])
  | ok dO =>
    cases hU : american_to_decimal betting_odds_under with
    | error e => rw [hO, hU] at h; exact absurd h (by simp [Except.bind])
    | ok dU =>
      rw [hO, hU] at h
      simp only [Except.bind, Except.ok.injEq] at h
      exact ⟨dO, dU, rfl, rfl, h.symm⟩

/-- For nonzero odds the conversion succeeds. -/
theorem american_to_decimal_isOk (odds : ℤ) (h : odds ≠ 0) :
    ∃ v, american_to_decimal odds = Except.ok v := by
  unfold american_to_decimal
  split_ifs with h1 h2
  · exact ⟨_, rfl⟩
  · exact absurd (Int.natAbs_eq_zero.mp h2) h
  · exact ⟨_, rfl⟩

/-- For nonzero odds on both sides the whole pipeline succeeds. -/
theorem calculate_betting_recommendation_isOk (features : Features)
    (prop_line : ℚ) (betting_odds_over betting_odds_under : ℤ) (draws : List ℚ)
    (hO : betting_odds_over ≠ 0) (hU : betting_odds_under ≠ 0) :
    ∃ rec, calculate_betting_recommendation features prop_line betting_odds_over
      betting_odds_under draws = Except.ok rec := by
  obtain ⟨vO, hvO⟩ := american_to_decimal_isOk betting_odds_over hO
  obtain ⟨vU, hvU⟩ := american_to_decimal_isOk betting_odds_under hU
  refine ⟨recommendationFrom (predictionAndStd features).1 prop_line
      (run_monte_carlo_simulation (predictionAndStd features).1
        (predictionAndStd features).2 prop_line draws) vO vU, ?_⟩
  simp only [calculate_betting_recommendation, hvO, hvU, Except.bind]

/-- C1: for every features/odds input on which
`calculate_betting_recommendation` succeeds, the recommendation is OVER
exactly when `edge_over` exceeds the `0.05` minimum-edge threshold and is
strictly greater than `edge_under`; UNDER exactly when `edge_under` exceeds
`0.05` and is strictly greater than `edge_over`; NO_BET otherwise —
including the tie `edge_over = edge_under`; and for a chosen side the
confidence equals `min (edge * 10) 5`, which lies in the 0-5 range. -/
theorem calculate_betting_recommendation_decision_rule (features : Features)
    (prop_line : ℚ) (betting_odds_over betting_odds_under : ℤ) (draws : List ℚ)
    (rec : Recommendation)
    (h : calculate_betting_recommendation features prop_line betting_odds_over
      betting_odds_under draws = Except.ok rec) :
    (rec.bet = Bet.over ↔ 0.05 < rec.edge_over ∧ rec.edge_under < rec.edge_over) ∧
    (rec.bet = Bet.under ↔ 0.05 < rec.edge_under ∧ rec.edge_over < rec.edge_under) ∧
    (rec.bet = Bet.noBet ↔
      ¬(0.05 < rec.edge_over ∧ rec.edge_under < rec.edge_over) ∧
      ¬(0.05 < rec.edge_under ∧ rec.edge_over < rec.edge_under)) ∧
    (rec.edge_over = rec.edge_under → rec.bet = Bet.noBet) ∧
    (rec.bet = Bet.over → rec.confidence = min (rec.edge_over * 10) 5 ∧
      0 ≤ rec.confidence ∧ rec.confidence ≤ 5) ∧
    (rec.bet = Bet.under → rec.confidence = min (rec.edge_under * 10) 5 ∧
      0 ≤ rec.confidence ∧ rec.confidence ≤ 5) := by
  obtain ⟨dO, dU, -, -, hrec⟩ :=
    calculate_betting_recommendation_ok_shape features prop_line betting_odds_over
      betting_odds_under draws rec h
  exact recommendationFrom_decision _ _ _ dO dU rec hrec

/-- A concrete feature vector used by witnesses: league-average opponent,
home game, zero recent production and zero sample standard deviation. -/
def fv0 : Features where
  recent_avg_5 := 0
  recent_avg_10 := 0
  season_avg := 0
  games_played := 0
  std_dev := 0
  recent_min_avg := 0
  home_away := 1
  opp_def_rating := 115
  opp_pace := 99
  opp_pts_allowed := 112
  opp_team_abbr_resolved := "BOS"
  opp_team_name_resolved := "Boston Celtics"
  hot_cold_factor := 0

/-- Witness for C1 at concrete features, line `10`, American odds
`+100/+100` and the empty draw list (over probability `0`, under `1`: an
UNDER recommendation with confidence `5`). -/
theorem calculate_betting_recommendation_decision_rule_witness :
    ∃ rec : Recommendation,
      calculate_betting_recommendation fv0 10 100 100 [] = Except.ok rec ∧
      ((rec.bet = Bet.over ↔ 0.05 < rec.edge_over ∧ rec.edge_under < rec.edge_over) ∧
       (rec.bet = Bet.under ↔ 0.05 < rec.edge_under ∧ rec.edge_over < rec.edge_under) ∧
       (rec.bet = Bet.noBet ↔
         ¬(0.05 < rec.edge_over ∧ rec.edge_under < rec.edge_over) ∧
         ¬(0.05 < rec.edge_under ∧ rec.edge_over < rec.edge_under)) ∧
       (rec.edge_over = rec.edge_under → rec.bet = Bet.noBet) ∧
       (rec.bet = Bet.over → rec.confidence = min (rec.edge_over * 10) 5 ∧
         0 ≤ rec.confidence ∧ rec.confidence ≤ 5) ∧
       (rec.bet = Bet.under → rec.confidence = min (rec.edge_under * 10) 5 ∧
         0 ≤ rec.confidence ∧ rec.confidence ≤ 5)) := by
  obtain ⟨rec, hrec⟩ := calculate_betting_recommendation_isOk fv0 10 100 100 []
    (by norm_num) (by norm_num)
  exact ⟨rec, hrec,
    calculate_betting_recommendation_decision_rule fv0 10 100 100 [] rec hrec⟩

end BettingNew

namespace BettingNew

/-! ## C8: no std-dev floor -/

/-- C8 counterexample: three games with identical values give a sample
variance of exactly `0` (so the sample standard deviation, its square root,
is `0`), and `calculate_betting_recommendation` hands the feature's
`std_dev` to the simulator unchanged (`fv0.std_dev = 0` reaches it) — the
simulator can be invoked with a degenerate zero-variance distribution; no
`0.01`-style floor exists anywhere in the source. -/
theorem zero_std_dev_reaches_simulator :
    calculate_varianceSq (some [10, 10, 10]) = 0 ∧
    fv0.std_dev = 0 ∧
    (predictionAndStd fv0).2 = 0 := by
  refine ⟨?_, rfl, rfl⟩
  norm_num [calculate_varianceSq, sampleVarianceDdof1, sampleMean]

/-- C8 (amended): no std-dev floor exists.  The `std_dev` passed to the
simulator is exactly the feature's `std_dev` (no flooring between the
features and the `run_monte_carlo_simulation` call); whenever a log of at
least 3 games carries one identical value in its 10 most recent entries,
the variance estimate is exactly `0`, so a zero standard deviation goes
into the simulator; the fixed default (`5.0`, squared `25`) applies only
below 3 games. -/
theorem std_dev_unfloored_passthrough (features : Features) (log : List ℚ)
    (c : ℚ) (h3 : 3 ≤ log.length) (hc : ∀ x ∈ log.take 10, x = c) :
    (predictionAndStd features).2 = features.std_dev ∧
    calculate_varianceSq (some log) = 0 ∧
    (∀ short : List ℚ, short.length < 3 → calculate_varianceSq (some short) = 25) := by
  refine ⟨rfl, ?_, fun short hshort => by simp [calculate_varianceSq, hshort]⟩
  have hlt : ¬ log.length < 3 := by omega
  have hmean : sampleMean (log.take 10) = c := by
    have hlen : (log.take 10).length ≠ 0 := by
      rw [List.length_take]
      omega
    have hsum : (log.take 10).sum = (log.take 10).length • c :=
      List.sum_eq_card_nsmul _ c hc
    have hne : ((log.take 10).length : ℚ) ≠ 0 := by exact_mod_cast hlen
    rw [sampleMean, hsum, nsmul_eq_mul]
    field_simp
  have hzero : ∀ y ∈ (log.take 10).map
      (fun x => (x - sampleMean (log.take 10)) ^ 2), y = 0 := by
    intro y hy
    obtain ⟨x, hx, rfl⟩ := List.mem_map.mp hy
    rw [hc x hx, hmean]
    ring
  simp only [calculate_varianceSq, hlt, if_false, sampleVarianceDdof1]
  rw [List.sum_eq_zero hzero, zero_div]

/-- Witness for C8 at features `fv0` and the constant log `[10, 10, 10]`. -/
theorem std_dev_unfloored_passthrough_witness :
    (3 ≤ ([10, 10, 10] : List ℚ).length ∧
      ∀ x ∈ ([10, 10, 10] : List ℚ).take 10, x = 10) ∧
    ((predictionAndStd fv0).2 = fv0.std_dev ∧
     calculate_varianceSq (some [10, 10, 10]) = 0 ∧
     (∀ short : List ℚ, short.length < 3 → calculate_varianceSq (some short) = 25)) :=
  ⟨⟨by norm_num, by simp⟩,
   std_dev_unfloored_passthrough fv0 [10, 10, 10] 10 (by norm_num) (by simp)⟩

/-! ## C10: opponent-lookup fallback -/

/-- C10: when the opponent lookup fails (`get_team_defense_stats` returns
`None`), `engineer_features` substitutes the fallback constants
`def_rating = 112.0`, `pace = 99.0`, `pts_allowed = 112.0` into the feature
fields without raising (the embedded update is a total function, mirroring
the source's exception-free branch), and emits a `[team-defense]` fallback
line to the console, so the fallback is observable rather than silent; on a
successful lookup the stats pass through unchanged and no fallback line is
logged. -/
theorem opponent_fallback_constants_and_log (opponent_team : String)
    (resolved : Option ResolvedTeam) (s : OppStats) :
    (applyOpponentStats opponent_team none resolved).1.opp_def_rating = 112 ∧
    (applyOpponentStats opponent_team none resolved).1.opp_pace = 99 ∧
    (applyOpponentStats opponent_team none resolved).1.opp_pts_allowed = 112 ∧
    (applyOpponentStats opponent_team none resolved).2 ≠ [] ∧
    (applyOpponentStats opponent_team (some s) resolved).1 = s ∧
    (applyOpponentStats opponent_team (some s) resolved).2 = [] := by
  refine ⟨?_, ?_, ?_, ?_, rfl, rfl⟩ <;> norm_num [applyOpponentStats]

/-- A concrete successful opponent lookup used by the C10 witness. -/
def oppStats0 : OppStats where
  opp_def_rating := 110
  opp_pace := 100
  opp_pts_allowed := 111
  opp_team_abbr_resolved := "BOS"
  opp_team_name_resolved := "Boston Celtics"

/-- Witness for C10 at the unresolvable opponent string `"XYZ"` and the
concrete successful lookup `oppStats0`. -/
theorem opponent_fallback_constants_and_log_witness :
    (applyOpponentStats "XYZ" none none).1.opp_def_rating = 112 ∧
    (applyOpponentStats "XYZ" none none).1.opp_pace = 99 ∧
    (applyOpponentStats "XYZ" none none).1.opp_pts_allowed = 112 ∧
    (applyOpponentStats "XYZ" none none).2 ≠ [] ∧
    (applyOpponentStats "XYZ" (some oppStats0) none).1 = oppStats0 ∧
    (applyOpponentStats "XYZ" (some oppStats0) none).2 = [] :=
  opponent_fallback_constants_and_log "XYZ" none oppStats0

end BettingNew
